import Mathlib

/-!
Verification of the AlQuran sample-data generation scripts.

The repository contains three near-duplicate Python scripts that fetch
reciter/chapter metadata from the mp3quran.net API and serialize it into
Kotlin source literals:

* `src/helper-scripts/generateSampleData.py` (dataclass variant), the most
  complete one: dataclasses `Surah`, `Moshaf`, `Reciter` with
  `__toString__` serializers, a generic `toDataClass` mapper, and
  `sendRequest` with a urllib3 `Retry(total=3, backoff_factor=0.125)` policy;
* `src/helper_scripts/generateSampleData.py` (dict variant), which escapes
  embedded double quotes with `ktString` before quoting;
* `src/mobile/src/main/java/com/hifnawy/alquran/utils/generateSampleData.py`.

This file is a shallow embedding of those scripts.  Machine strings are
Lean `String`s (lists of characters), Python ints are `Int`, JSON values
are `JValue`, fallible code returns `Except String`.
-/

/-! ## Data model (dataclasses of src/helper-scripts/generateSampleData.py) -/

/-- A JSON-like wire value, as produced by `response.json()`.  Objects are
association lists with distinct keys (Python dicts). -/
inductive JValue where
  | jint : Int → JValue
  | jstr : String → JValue
  | jlist : List JValue → JValue
  | jobj : List (String × JValue) → JValue

/-- Dataclass `Surah` (lines 56-78): id, name, startPage ("start_page"),
endPage ("end_page"), makkia, type. -/
structure Surah where
  id : Int
  name : String
  startPage : Int
  endPage : Int
  makkia : Int
  type : Int
deriving DecidableEq, Repr

/-- Dataclass `Moshaf` (lines 114-135): id, name, server,
surahsCount ("surah_total"), moshafType ("moshaf_type"),
surahIdsStr ("surah_list"). -/
structure Moshaf where
  id : Int
  name : String
  server : String
  surahsCount : Int
  moshafType : Int
  surahIdsStr : String
deriving DecidableEq, Repr

/-- Dataclass `Reciter` (lines 172-191): id, name, letter, date,
moshafList ("moshaf"). -/
structure Reciter where
  id : Int
  name : String
  letter : String
  date : String
  moshafList : List Moshaf
deriving DecidableEq, Repr

/-! ## Deterministic serializer (the `__toString__` methods) -/

/-- Constant `EDITOR_INDENT_SIZE = 4` (line 34). -/
def EDITOR_INDENT_SIZE : Nat := 4

/-- Constant `EDITOR_INDENT = " " * EDITOR_INDENT_SIZE` (line 41). -/
def EDITOR_INDENT : String := "    "

/-- Python string repetition `s * n`. -/
def strRepeat (s : String) (n : Nat) : String :=
  String.join (List.replicate n s)

/-- Expression `EDITOR_INDENT * k`, the indentation used throughout the serializers. -/
def indentN (k : Nat) : String := strRepeat EDITOR_INDENT k

/-- Python `str.join(sep, parts)`: the separator is placed between
consecutive elements and nowhere else; the empty list joins to `""`. -/
def joinStrings (sep : String) : List String → String
  | [] => ""
  | [x] => x
  | x :: y :: rest => x ++ sep ++ joinStrings sep (y :: rest)

/-- Method `Surah.__toString__` (lines 80-95).  Field values are interpolated
verbatim; note that the name is quoted but NOT escaped. -/
def surahToString (s : Surah) : String :=
  "Surah(" ++ "id = " ++ toString s.id ++ ", "
  ++ "name = \"" ++ s.name ++ "\", "
  ++ "startPage = " ++ toString s.startPage ++ ", "
  ++ "endPage = " ++ toString s.endPage ++ ", "
  ++ "makkia = " ++ toString s.makkia ++ ", "
  ++ "type = " ++ toString s.type
  ++ ")"

/-- Method `Moshaf.__toString__(withIndent)` (lines 137-153).  `__str__` calls it
with `withIndent=True`, `__repr__` with `withIndent=False`. -/
def moshafToString (withIndent : Bool) (m : Moshaf) : String :=
  "Moshaf(\n"
  ++ (if withIndent then indentN 8 else "") ++ "id = " ++ toString m.id ++ ",\n"
  ++ (if withIndent then indentN 8 else "") ++ "name = \"" ++ m.name ++ "\",\n"
  ++ (if withIndent then indentN 8 else "") ++ "server = \"" ++ m.server ++ "\",\n"
  ++ (if withIndent then indentN 8 else "") ++ "surahsCount = " ++ toString m.surahsCount ++ ",\n"
  ++ (if withIndent then indentN 8 else "") ++ "moshafType = " ++ toString m.moshafType ++ ",\n"
  ++ (if withIndent then indentN 8 else "") ++ "surahIdsStr = \"" ++ m.surahIdsStr ++ "\"\n"
  ++ (if withIndent then indentN 6 else "") ++ ")"

/-- Method `Reciter.__toString__(withIndent)` (lines 193-215).  The nested moshaf
list is rendered element by element in source order and joined with
`",\n" + EDITOR_INDENT * 6` (when indented). -/
def reciterToString (withIndent : Bool) (r : Reciter) : String :=
  let moshafList := joinStrings (",\n" ++ (if withIndent then indentN 6 else ""))
      (r.moshafList.map (fun m => moshafToString withIndent m))
  (if withIndent then indentN 2 else "") ++ "Reciter(\n"
  ++ (if withIndent then indentN 4 else "") ++ "id = " ++ toString r.id ++ ".asReciterId,\n"
  ++ (if withIndent then indentN 4 else "") ++ "name = \"" ++ r.name ++ "\",\n"
  ++ (if withIndent then indentN 4 else "") ++ "letter = \"" ++ r.letter ++ "\",\n"
  ++ (if withIndent then indentN 4 else "") ++ "date = \"" ++ r.date ++ "\",\n"
  ++ (if withIndent then indentN 4 else "") ++ "moshafList = listOf(\n"
  ++ (if withIndent then indentN 6 else "") ++ moshafList ++ "\n"
  ++ (if withIndent then indentN 4 else "") ++ ")\n"
  ++ (if withIndent then indentN 2 else "") ++ ")"

/-! ## Record mapper (`toDataClass`, lines 234-277)

`toDataClass(data, cls)` walks the schema of `cls` in declared field order.
For each field it resolves the wire name (the `Annotated` override when
present, the field name otherwise); when the wire name is absent from the
mapping it executes `continue`, silently skipping the field.  Finally it
calls `cls(**initKwargs)`.  None of the three dataclasses declares default
values, so the constructor raises `TypeError` as soon as one required
field was skipped.  The embedding fuses the kwargs dictionary with the
constructor: a field is present in `initKwargs` exactly when its wire name
is present in `data`, so looking the wire name up in `data` directly is
observationally the same, and a missing (or non-conforming) field yields
`Except.error "TypeError"`.

The wire values exercised by the claims are well-typed; Python dataclasses
do not check field types at construction, but no claim depends on an
ill-typed field, so the embedding simply rejects them with the same error.
-/

/-- Call `toDataClass(data, Surah)`: wire names id, name, start_page, end_page,
makkia, type (schema order of the `Surah` dataclass). -/
def toDataClassSurah (data : List (String × JValue)) : Except String Surah :=
  match data.lookup "id" with
  | some (JValue.jint i) =>
    match data.lookup "name" with
    | some (JValue.jstr n) =>
      match data.lookup "start_page" with
      | some (JValue.jint sp) =>
        match data.lookup "end_page" with
        | some (JValue.jint ep) =>
          match data.lookup "makkia" with
          | some (JValue.jint mk) =>
            match data.lookup "type" with
            | some (JValue.jint ty) =>
              Except.ok { id := i, name := n, startPage := sp, endPage := ep, makkia := mk, type := ty }
            | _ => Except.error "TypeError"
          | _ => Except.error "TypeError"
        | _ => Except.error "TypeError"
      | _ => Except.error "TypeError"
    | _ => Except.error "TypeError"
  | _ => Except.error "TypeError"

/-- Call `toDataClass(data, Moshaf)`: wire names id, name, server, surah_total,
moshaf_type, surah_list. -/
def toDataClassMoshaf (data : List (String × JValue)) : Except String Moshaf :=
  match data.lookup "id" with
  | some (JValue.jint i) =>
    match data.lookup "name" with
    | some (JValue.jstr n) =>
      match data.lookup "server" with
      | some (JValue.jstr sv) =>
        match data.lookup "surah_total" with
        | some (JValue.jint sc) =>
          match data.lookup "moshaf_type" with
          | some (JValue.jint mt) =>
            match data.lookup "surah_list" with
            | some (JValue.jstr sl) =>
              Except.ok { id := i, name := n, server := sv, surahsCount := sc, moshafType := mt, surahIdsStr := sl }
            | _ => Except.error "TypeError"
          | _ => Except.error "TypeError"
        | _ => Except.error "TypeError"
      | _ => Except.error "TypeError"
    | _ => Except.error "TypeError"
  | _ => Except.error "TypeError"

/-- The list-of-dataclass branch of `toDataClass` (lines 266-272): each
element of the wire sequence is mapped recursively with the element
schema, preserving source order; a failing element propagates. -/
def mapMoshafItems : List JValue → Except String (List Moshaf)
  | [] => Except.ok []
  | j :: rest =>
    match j with
    | JValue.jobj o =>
      match toDataClassMoshaf o with
      | Except.ok m =>
        match mapMoshafItems rest with
        | Except.ok ms => Except.ok (m :: ms)
        | Except.error e => Except.error e
      | Except.error e => Except.error e
    | _ => Except.error "TypeError"

/-- Call `toDataClass(data, Reciter)`: wire names id, name, letter, date and the
nested list-of-record field under wire name "moshaf". -/
def toDataClassReciter (data : List (String × JValue)) : Except String Reciter :=
  match data.lookup "id" with
  | some (JValue.jint i) =>
    match data.lookup "name" with
    | some (JValue.jstr n) =>
      match data.lookup "letter" with
      | some (JValue.jstr lt) =>
        match data.lookup "date" with
        | some (JValue.jstr dt) =>
          match data.lookup "moshaf" with
          | some (JValue.jlist items) =>
            match mapMoshafItems items with
            | Except.ok ms =>
              Except.ok { id := i, name := n, letter := lt, date := dt, moshafList := ms }
            | Except.error e => Except.error e
          | _ => Except.error "TypeError"
        | _ => Except.error "TypeError"
      | _ => Except.error "TypeError"
    | _ => Except.error "TypeError"
  | _ => Except.error "TypeError"

/-! ## Pipeline driver (`main`, lines 347-427) -/

/-- Header lines written before the two list literals (lines 401-408). -/
def fileHeaders : List String :=
  ["@file:Suppress(\"SpellCheckingInspection\")\n",
   "package com.hifnawy.alquran.utils\n",
   "import com.hifnawy.alquran.shared.model.Moshaf",
   "import com.hifnawy.alquran.shared.model.Reciter",
   "import com.hifnawy.alquran.shared.model.Surah",
   "import com.hifnawy.alquran.shared.model.asReciterId\n"]

/-- Expression `",\n\n".join(str(reciter) for reciter in reciters)` (line 384):
each reciter is rendered with `__str__`, that is `withIndent=True`. -/
def kotlinReciters (reciters : List Reciter) : String :=
  joinStrings ",\n\n" (reciters.map (fun r => reciterToString true r))

/-- Variable `kotlinRecitersList` (line 388). -/
def kotlinRecitersList (reciters : List Reciter) : String :=
  "val sampleReciters = listOf(\n" ++ kotlinReciters reciters ++ "\n)\n"

/-- Variable `kotlinSurahs` (line 392): joined with `",\n" + EDITOR_INDENT * 2`. -/
def kotlinSurahs (surahs : List Surah) : String :=
  joinStrings (",\n" ++ indentN 2) (surahs.map surahToString)

/-- Variable `kotlinSurahsList` (lines 396-398). -/
def kotlinSurahsList (surahs : List Surah) : String :=
  "val sampleSurahs = listOf(\n" ++ indentN 2 ++ kotlinSurahs surahs ++ "\n)\n"

/-- The text written to `SampleData.kt` (lines 411-426): every header plus
a newline, then the reciters list, a blank line, then the surahs list.
The write loop re-emits `kotlinRecitersList.splitlines()` line by line
with a `"\n"` after each; on text that is newline-terminated and free of
other line separators this reproduces the text itself, so the file content
is the plain concatenation. -/
def fileContent (reciters : List Reciter) (surahs : List Surah) : String :=
  String.join (fileHeaders.map (fun h => h ++ "\n"))
  ++ kotlinRecitersList reciters ++ "\n" ++ kotlinSurahsList surahs

/-- Python truthiness of a fetch result: `None` and the empty list are
falsy, a non-empty list is truthy (the `if reciters:` / `if surahs:`
checks in lines 367 and 375). -/
def pyTruthy {α : Type} : Option (List α) → Bool
  | none => false
  | some l => !l.isEmpty

/-- Exit code, stderr diagnostics and written output of `main`
(lines 362-427), as a function of the two fetch results.  `getReciters()`
is called first; when its result is falsy the script prints the reciters
diagnostic to stderr and calls `exit(1)` before fetching, mapping or
serializing anything (so the surahs argument is not examined).  When the
surahs result is falsy it exits with code 2.  Otherwise the script runs to
completion — Python then exits with code 0 — after writing the output
file. -/
structure MainResult where
  exitCode : Nat
  errLines : List String
  output : Option String
deriving DecidableEq

def mainModel (recitersRes : Option (List Reciter)) (surahsRes : Option (List Surah)) : MainResult :=
  if pyTruthy recitersRes then
    if pyTruthy surahsRes then
      { exitCode := 0, errLines := [],
        output := some (fileContent (recitersRes.getD []) (surahsRes.getD [])) }
    else
      { exitCode := 2, errLines := ["[✗] Surahs data fetching failed."], output := none }
  else
    { exitCode := 1, errLines := ["[✗] Reciters data fetching failed."], output := none }

/-- Mapping of the raw `reciters` payload (line 329). -/
def mapReciters : List JValue → Except String (List Reciter)
  | [] => Except.ok []
  | j :: rest =>
    match j with
    | JValue.jobj o =>
      match toDataClassReciter o with
      | Except.ok r =>
        match mapReciters rest with
        | Except.ok rs => Except.ok (r :: rs)
        | Except.error e => Except.error e
      | Except.error e => Except.error e
    | _ => Except.error "TypeError"

/-- Mapping of the raw `suwar` payload (line 344). -/
def mapSurahs : List JValue → Except String (List Surah)
  | [] => Except.ok []
  | j :: rest =>
    match j with
    | JValue.jobj o =>
      match toDataClassSurah o with
      | Except.ok s =>
        match mapSurahs rest with
        | Except.ok ss => Except.ok (s :: ss)
        | Except.error e => Except.error e
      | Except.error e => Except.error e
    | _ => Except.error "TypeError"

/-- The map-then-serialize pipeline on raw wire payloads: materialize both
record families, then render the output file text. -/
def runPipeline (recitersWire surahsWire : List JValue) : Except String String :=
  match mapReciters recitersWire with
  | Except.ok rs =>
    match mapSurahs surahsWire with
    | Except.ok ss => Except.ok (fileContent rs ss)
    | Except.error e => Except.error e
  | Except.error e => Except.error e

/-! ## Resilient fetcher (`sendRequest`, lines 280-314)

`sendRequest` mounts an `HTTPAdapter` with
`Retry(total=3, backoff_factor=0.125)` and performs `session.get` with a
3 second timeout, catching `RequestException` and returning `None` after
printing one `ERROR: ...` line to stderr.

urllib3 retry semantics for this configuration, embedded here:

* `total=3` allows the initial attempt plus at most 3 retries (4 attempts);
* only connection-level failures are retried — the default
  `status_forcelist` is `None`, so a completed HTTP response of any status
  (including 4xx and 5xx) is returned to the caller as-is (urllib3 retries
  a completed response only for statuses 413/429/503 carrying a
  Retry-After header, which no claim exercises and which the embedded
  oracle never produces);
* the sleep before the n-th retry is `get_backoff_time`: zero for the
  first retry, then `backoff_factor * 2 ** (consecutive_errors - 1)`.
  With `backoff_factor=0.125` this gives 0ms, 250ms, 500ms — NOT the
  250ms/500ms/1s announced in the docstring of `sendRequest` (lines
  284-301), which uses the wrong formula `factor * 2 ** previous_retries`;
* when the 4th attempt also fails at the connection level, `increment`
  raises `MaxRetryError`, surfacing as a `requests` `ConnectionError`,
  which the `except RequestException` branch converts into a `None`
  return plus a single stderr diagnostic naming the cause.

An attempt outcome is supplied by an oracle indexed by attempt number, so
the fetcher is a pure function of the simulated network. Delays are
recorded in milliseconds.
-/

/-- Outcome of one low-level connection attempt. -/
inductive AttemptResult where
  | connError : String → AttemptResult
  | response : Nat → String → AttemptResult

/-- Formula `Retry.get_backoff_time` with `backoff_factor = 0.125` (125ms), where
`k` is the number of consecutive failed attempts recorded in the retry
history: zero for the first retry, `125 * 2 ^ (k - 1)` ms afterwards. -/
def backoffMs (k : Nat) : Nat :=
  if k ≤ 1 then 0 else 125 * 2 ^ (k - 1)

/-- Trace of one `sendRequest` call: the returned value (`some (status,
body)` for a completed response, `none` for the `None` return), the
stderr lines printed, the number of connection attempts made, and the
backoff sleeps (ms) between attempts. -/
structure SendTrace where
  result : Option (Nat × String)
  stderrLines : List String
  attempts : Nat
  sleeps : List Nat
deriving DecidableEq

/-- The retry loop of the mounted adapter: `retriesLeft` starts at
`total = 3`; a completed response returns immediately; a connection error
either consumes a retry (after the backoff sleep) or, when retries are
exhausted, becomes the caught `RequestException`: `print(f"ERROR: {ex}",
file=sys.stderr); return None` (lines 310-312). -/
def sendRequestAux (oracle : Nat → AttemptResult) : Nat → Nat → List Nat → SendTrace
  | retriesLeft, attemptIdx, sleepsAcc =>
    match oracle attemptIdx with
    | AttemptResult.response st body =>
      { result := some (st, body), stderrLines := [],
        attempts := attemptIdx + 1, sleeps := sleepsAcc }
    | AttemptResult.connError msg =>
      match retriesLeft with
      | 0 =>
        { result := none, stderrLines := ["ERROR: " ++ msg],
          attempts := attemptIdx + 1, sleeps := sleepsAcc }
      | k + 1 =>
        sendRequestAux oracle k (attemptIdx + 1) (sleepsAcc ++ [backoffMs (attemptIdx + 1)])

/-- Function `sendRequest(url)` under a simulated network: initial attempt plus up
to `total = 3` retries. -/
def sendRequest (oracle : Nat → AttemptResult) : SendTrace :=
  sendRequestAux oracle 3 0 []

/-! ## The dict variant and its quote escaping
(`src/helper_scripts/generateSampleData.py`) -/

/-- Function `ktString(value)` (helper_scripts lines 8-12):
`value.replace('"', '\\"')` — every double quote in the string becomes a
backslash followed by a quote.  The single-character pattern makes the
replacement a per-character substitution. -/
def ktStringAux : List Char → List Char
  | [] => []
  | c :: rest =>
    if c = '"' then '\\' :: '"' :: ktStringAux rest else c :: ktStringAux rest

def ktString (s : String) : String := String.mk (ktStringAux s.data)

/-- Re-parsing of a quoted-literal body with a compatible grammar: the
two-character escape `\"` denotes a double quote, every other character
denotes itself. -/
def ktUnescapeAux : List Char → List Char
  | [] => []
  | [c] => [c]
  | c :: d :: rest =>
    if c = '\\' ∧ d = '"' then '"' :: ktUnescapeAux rest
    else c :: ktUnescapeAux (d :: rest)

def ktUnescape (s : String) : String := String.mk (ktUnescapeAux s.data)

/-- Function `surahToKotlin(surah)` (helper_scripts lines 15-25): same shape as
`Surah.__toString__` of the dataclass variant, but the name is passed
through `ktString` before being quoted.  The wire dict is assumed to carry
all six keys (a missing key would raise `KeyError`, which no claim
exercises); the six values are carried by a `Surah` record. -/
def surahToKotlin (s : Surah) : String :=
  "Surah(" ++ "id = " ++ toString s.id ++ ", "
  ++ "name = \"" ++ ktString s.name ++ "\", "
  ++ "startPage = " ++ toString s.startPage ++ ", "
  ++ "endPage = " ++ toString s.endPage ++ ", "
  ++ "makkia = " ++ toString s.makkia ++ ", "
  ++ "type = " ++ toString s.type
  ++ ")"

/-! ## Splitting on the blank-line separator

The top-level reciters collection is joined with `",\n\n"` (line 384).
The test procedure of the spec splits the joined text back on that separator;
`splitBlankAux` embeds Python `text.split(",\n\n")`: a greedy left-to-right
scan for the three-character separator, cutting a chunk at every
non-overlapping occurrence.  Lists of characters keep the recursion
structural so that concrete instances evaluate inside `decide`. -/

/-- The blank-line separator `",\n\n"` as characters. -/
def sepChars : List Char := [',', '\n', '\n']

/-- One pass of Python `split(",\n\n")` over the character list: `acc`
holds the current chunk reversed. -/
def splitBlankAux : List Char → List Char → List (List Char)
  | [], acc => [acc.reverse]
  | [c], acc => [(c :: acc).reverse]
  | [c, d], acc => [(d :: c :: acc).reverse]
  | c :: d :: e :: rest, acc =>
    if c = ',' ∧ d = '\n' ∧ e = '\n' then
      acc.reverse :: splitBlankAux rest []
    else
      splitBlankAux (d :: e :: rest) (c :: acc)

/-- Python `text.split(",\n\n")`. -/
def pySplitBlank (s : String) : List String :=
  (splitBlankAux s.data []).map String.mk

/-- Does the character list contain the separator `",\n\n"` as a
(contiguous) substring? -/
def containsSep : List Char → Bool
  | c :: d :: e :: rest =>
    decide (c = ',' ∧ d = '\n' ∧ e = '\n') || containsSep (d :: e :: rest)
  | _ => false

/-- Function `joinStrings` at the character level. -/
def joinChars (sep : List Char) : List (List Char) → List Char
  | [] => []
  | [x] => x
  | x :: y :: rest => x ++ sep ++ joinChars sep (y :: rest)

/-! ## Concrete fixtures used by witnesses and counterexamples -/

/-- The spec fixture for the Chapter schema. -/
def fatihaWire : List (String × JValue) :=
  [("id", JValue.jint 1), ("name", JValue.jstr "Al-Fatiha"),
   ("start_page", JValue.jint 1), ("end_page", JValue.jint 1),
   ("makkia", JValue.jint 1), ("type", JValue.jint 1)]

/-- The same wire object with the declared field "name" absent. -/
def surahWireMissingName : List (String × JValue) :=
  [("id", JValue.jint 1),
   ("start_page", JValue.jint 1), ("end_page", JValue.jint 1),
   ("makkia", JValue.jint 1), ("type", JValue.jint 1)]

/-- A Surah whose name contains embedded double quotes. -/
def badSurah : Surah := ⟨1, "Al-\"Fatiha\"", 1, 1, 1, 1⟩

/-- A simulated target whose connection fails on every attempt. -/
def connFailOracle : Nat → AttemptResult :=
  fun _ => AttemptResult.connError "connection refused"

/-- A simulated target answering 404 immediately. -/
def http404Oracle : Nat → AttemptResult :=
  fun _ => AttemptResult.response 404 "Not Found"

/-- Small concrete records for witnesses. -/
def moshaf1 : Moshaf := ⟨101, "Murattal", "https://server1", 114, 11, "1,2,3"⟩

def moshaf2 : Moshaf := ⟨102, "Mujawwad", "https://server2", 100, 22, "4,5"⟩

def moshaf3 : Moshaf := ⟨201, "Warsh", "https://server3", 114, 33, "6"⟩

def moshaf4 : Moshaf := ⟨202, "Qaloon", "https://server4", 50, 44, "7,8"⟩

def reciterA : Reciter := ⟨1, "Reciter A", "R", "2020", [moshaf1, moshaf2]⟩

def reciterB : Reciter := ⟨2, "Reciter B", "R", "2021", [moshaf3, moshaf4]⟩

/-- A reciter whose name embeds the blank-line separator of the top-level
join. -/
def reciterBad : Reciter := ⟨9, "X,\n\nY", "X", "2020", []⟩

/-- A plain surah record for driver witnesses. -/
def surah0 : Surah := ⟨1, "Al-Fatiha", 1, 1, 1, 1⟩

/-- The wire names declared by each schema (`Annotated` overrides where
present). -/
def surahWireNames : List String :=
  ["id", "name", "start_page", "end_page", "makkia", "type"]

def moshafWireNames : List String :=
  ["id", "name", "server", "surah_total", "moshaf_type", "surah_list"]

def reciterWireNames : List String :=
  ["id", "name", "letter", "date", "moshaf"]

/-! ## Helper lemmas -/

theorem string_data_append (a b : String) : (a ++ b).data = a.data ++ b.data := by
  cases a
  cases b
  rfl

theorem string_mk_data (s : String) : String.mk s.data = s := by
  cases s
  rfl

theorem joinStrings_data (sep : String) (l : List String) :
    (joinStrings sep l).data = joinChars sep.data (l.map String.data) := by
  induction l with
  | nil => rfl
  | cons x t ih =>
    cases t with
    | nil => rfl
    | cons y r =>
      simp only [joinStrings, joinChars, List.map, string_data_append, ih]

/-! ## Claim theorems -/

/-- Claim C4: mapping the wire object for Al-Fatiha with the Chapter
schema and serializing the resulting record produces exactly the expected
Kotlin constructor literal, fields in schema order. -/
theorem fatiha_map_then_serialize :
    toDataClassSurah fatihaWire = Except.ok ⟨1, "Al-Fatiha", 1, 1, 1, 1⟩ ∧
    surahToString ⟨1, "Al-Fatiha", 1, 1, 1, 1⟩
      = "Surah(id = 1, name = \"Al-Fatiha\", startPage = 1, endPage = 1, makkia = 1, type = 1)" :=
  ⟨rfl, rfl⟩

/-- Claim C7: mapping followed by serialization is deterministic — the
pipeline is a pure function of the wire payloads (the embedded code has no
source of nondeterminism: the schema drives the field order and Python
dicts preserve insertion order), so two runs on identical input produce
identical output text. -/
theorem pipeline_deterministic (recitersWire surahsWire : List JValue) :
    runPipeline recitersWire surahsWire = runPipeline recitersWire surahsWire := rfl

/-- Claim C8: a Reciter with an empty Recitation list serializes without
error to a literal whose `listOf(` ... `)` section contains only the
newline and indentation — no elements and no separator. -/
theorem reciter_empty_moshaf_list (i : Int) (n l d : String) :
    reciterToString true ⟨i, n, l, d, []⟩ =
      indentN 2 ++ "Reciter(\n"
      ++ indentN 4 ++ "id = " ++ toString i ++ ".asReciterId,\n"
      ++ indentN 4 ++ "name = \"" ++ n ++ "\",\n"
      ++ indentN 4 ++ "letter = \"" ++ l ++ "\",\n"
      ++ indentN 4 ++ "date = \"" ++ d ++ "\",\n"
      ++ indentN 4 ++ "moshafList = listOf(\n"
      ++ indentN 6 ++ "" ++ "\n"
      ++ indentN 4 ++ ")\n"
      ++ indentN 2 ++ ")" := rfl

/-- Claim C2 counterexample: a Chapter wire object lacking the declared
field "name" does not map to a record omitting that field — `toDataClass`
builds kwargs without it and the dataclass constructor raises `TypeError`
(the dataclasses declare no default values). -/
theorem toDataClass_missing_field_counterexample :
    toDataClassSurah surahWireMissingName = Except.error "TypeError" := rfl

/-- Claim C2 (amended): the field loop of `toDataClass` skips a schema
field whose wire name is absent from the mapping (no default is
substituted), but the subsequent `cls(**initKwargs)` call then raises
`TypeError` because every dataclass field is required; so a wire mapping
lacking a declared field makes the mapper fail rather than produce a
partial record.  This holds for each of the three schemas. -/
theorem toDataClass_missing_field_raises :
    (∀ data : List (String × JValue), ∀ w ∈ surahWireNames, data.lookup w = none →
      ∃ e, toDataClassSurah data = Except.error e) ∧
    (∀ data : List (String × JValue), ∀ w ∈ moshafWireNames, data.lookup w = none →
      ∃ e, toDataClassMoshaf data = Except.error e) ∧
    (∀ data : List (String × JValue), ∀ w ∈ reciterWireNames, data.lookup w = none →
      ∃ e, toDataClassReciter data = Except.error e) := by
  refine ⟨?_, ?_, ?_⟩ <;>
    · intro data w hw hmiss
      fin_cases hw <;>
        · simp only [toDataClassSurah, toDataClassMoshaf, toDataClassReciter, hmiss]
          repeat' first
            | exact ⟨_, rfl⟩
            | split

/-- Claim C2 witness: the amended theorem applied to the concrete wire
object missing "name". -/
theorem toDataClass_missing_field_raises_witness :
    ∃ e, toDataClassSurah surahWireMissingName = Except.error e :=
  toDataClass_missing_field_raises.1 surahWireMissingName "name" (by decide) rfl

/-- Claim C5: the driver exits 0 on success; a falsy reciters fetch result
makes it print the reciters diagnostic and exit 1 before examining (or
fetching) surahs and before serializing anything; a falsy surahs result
after a good reciters fetch exits 2; the two failure codes are distinct
and no output file is written in either failure case. -/
theorem main_exit_codes :
    (∀ ss : Option (List Surah),
      mainModel none ss = ⟨1, ["[✗] Reciters data fetching failed."], none⟩) ∧
    (∀ lr : List Reciter, lr ≠ [] →
      mainModel (some lr) none = ⟨2, ["[✗] Surahs data fetching failed."], none⟩) ∧
    (∀ (lr : List Reciter) (lsu : List Surah), lr ≠ [] → lsu ≠ [] →
      mainModel (some lr) (some lsu) = ⟨0, [], some (fileContent lr lsu)⟩) := by
  refine ⟨fun ss => rfl, fun lr hlr => ?_, fun lr lsu hlr hlsu => ?_⟩
  · cases lr with
    | nil => exact absurd rfl hlr
    | cons a t => rfl
  · cases lr with
    | nil => exact absurd rfl hlr
    | cons a t =>
      cases lsu with
      | nil => exact absurd rfl hlsu
      | cons b u => rfl

/-- Claim C5 witness: the exit-code theorem applied at concrete fetch
results. -/
theorem main_exit_codes_witness :
    mainModel none none = ⟨1, ["[✗] Reciters data fetching failed."], none⟩ ∧
    mainModel (some [reciterA]) none = ⟨2, ["[✗] Surahs data fetching failed."], none⟩ ∧
    mainModel (some [reciterA]) (some [surah0]) = ⟨0, [], some (fileContent [reciterA] [surah0])⟩ :=
  ⟨main_exit_codes.1 none,
   main_exit_codes.2.1 [reciterA] (List.cons_ne_nil _ _),
   main_exit_codes.2.2 [reciterA] [surah0] (List.cons_ne_nil _ _) (List.cons_ne_nil _ _)⟩

/-- Claim C10: a fetch that succeeds but yields an empty list is falsy in
Python, so the driver treats it exactly like a fetch failure — it prints
the failure diagnostic and exits with the same resource-specific code
instead of writing a file with an empty collection. -/
theorem main_empty_list_as_failure :
    (∀ ss : Option (List Surah),
      mainModel (some []) ss = ⟨1, ["[✗] Reciters data fetching failed."], none⟩) ∧
    (∀ lr : List Reciter, lr ≠ [] →
      mainModel (some lr) (some []) = ⟨2, ["[✗] Surahs data fetching failed."], none⟩) := by
  refine ⟨fun ss => rfl, fun lr hlr => ?_⟩
  cases lr with
  | nil => exact absurd rfl hlr
  | cons a t => rfl

/-- Claim C10 witness: the empty-list theorem applied at concrete fetch
results. -/
theorem main_empty_list_as_failure_witness :
    mainModel (some []) none = ⟨1, ["[✗] Reciters data fetching failed."], none⟩ ∧
    mainModel (some [reciterA]) (some []) = ⟨2, ["[✗] Surahs data fetching failed."], none⟩ :=
  ⟨main_empty_list_as_failure.1 none,
   main_empty_list_as_failure.2 [reciterA] (List.cons_ne_nil _ _)⟩

/-- Bound on the number of attempts the retry loop can make. -/
theorem sendRequestAux_attempts_le (oracle : Nat → AttemptResult) :
    ∀ (k i : Nat) (acc : List Nat), (sendRequestAux oracle k i acc).attempts ≤ i + k + 1 := by
  intro k
  induction k with
  | zero =>
    intro i acc
    rw [sendRequestAux]
    cases h : oracle i <;> simp
  | succ k ih =>
    intro i acc
    rw [sendRequestAux]
    cases h : oracle i with
    | response st body => simp
    | connError msg =>
      refine le_trans (ih (i + 1) (acc ++ [backoffMs (i + 1)])) ?_
      omega

/-- Claim C3: under the configured policy `Retry(total=3,
backoff_factor=0.125)` the fetcher makes at most 4 attempts, and against a
target failing on every attempt it returns a failure after exactly 4
attempts — but the backoff sleeps are 0ms, 250ms and 500ms (urllib3 sleeps
zero before the first retry and `0.125 * 2 ** (n-1)` afterwards), not the
0.25/0.5/1.0 time units stated by the claim and by the docstring of
`sendRequest`. -/
theorem sendRequest_retry_trace :
    sendRequest connFailOracle
      = ⟨none, ["ERROR: connection refused"], 4, [0, 250, 500]⟩ ∧
    (∀ oracle : Nat → AttemptResult, (sendRequest oracle).attempts ≤ 4) :=
  ⟨rfl, fun oracle => sendRequestAux_attempts_le oracle 3 0 []⟩

/-- Every run of the retry loop either returns a completed response with
no diagnostic, or returns the failure signal together with exactly one
stderr line naming the underlying cause. -/
theorem sendRequestAux_boundary (oracle : Nat → AttemptResult) :
    ∀ (k i : Nat) (acc : List Nat),
      (∃ st body, (sendRequestAux oracle k i acc).result = some (st, body) ∧
        (sendRequestAux oracle k i acc).stderrLines = []) ∨
      ((sendRequestAux oracle k i acc).result = none ∧
        ∃ cause, (sendRequestAux oracle k i acc).stderrLines = ["ERROR: " ++ cause]) := by
  intro k
  induction k with
  | zero =>
    intro i acc
    rw [sendRequestAux]
    cases h : oracle i with
    | response st body => exact Or.inl ⟨st, body, rfl, rfl⟩
    | connError msg => exact Or.inr ⟨rfl, msg, rfl⟩
  | succ k ih =>
    intro i acc
    rw [sendRequestAux]
    cases h : oracle i with
    | response st body => exact Or.inl ⟨st, body, rfl, rfl⟩
    | connError msg => exact ih (i + 1) (acc ++ [backoffMs (i + 1)])

/-- Claim C6 counterexample: a non-retriable HTTP 4xx outcome is NOT
returned as a failure signal — with the default `Retry` configuration the
completed 404 response is handed back to the caller unchanged on the very
first attempt, and no diagnostic is written. -/
theorem sendRequest_404_counterexample :
    (sendRequest http404Oracle).result = some (404, "Not Found") ∧
    (sendRequest http404Oracle).stderrLines = [] ∧
    (sendRequest http404Oracle).attempts = 1 :=
  ⟨rfl, rfl, rfl⟩

/-- Claim C6 (amended): `sendRequest` never raises past its boundary — it
is a total function of the simulated network.  On connection-level failure
after retry exhaustion it returns the failure signal `None` and writes
exactly one `ERROR:` diagnostic line naming the underlying cause to
stderr; a completed HTTP response of any status, 4xx included, is returned
to the caller as-is with no diagnostic (it is not converted into a failure
signal). -/
theorem sendRequest_boundary (oracle : Nat → AttemptResult) :
    (∃ st body, (sendRequest oracle).result = some (st, body) ∧
      (sendRequest oracle).stderrLines = []) ∨
    ((sendRequest oracle).result = none ∧
      ∃ cause, (sendRequest oracle).stderrLines = ["ERROR: " ++ cause]) :=
  sendRequestAux_boundary oracle 3 0 []

/-- Unescaping inverts escaping at the character level: escaping maps a
quote to backslash-quote and leaves other characters alone, and the output
never exposes a spurious backslash-quote pair, so the greedy two-character
scan recovers every original character. -/
theorem ktUnescapeAux_ktStringAux : ∀ (l : List Char), ktUnescapeAux (ktStringAux l) = l := by
  intro l
  induction l with
  | nil => rfl
  | cons a t ih =>
    by_cases ha : a = '"'
    · subst ha
      have hK : ktStringAux ('"' :: t) = '\\' :: '"' :: ktStringAux t := by
        simp [ktStringAux]
      rw [hK]
      simp [ktUnescapeAux, ih]
    · have hKa : ktStringAux (a :: t) = a :: ktStringAux t := by
        simp [ktStringAux, ha]
      rw [hKa]
      cases t with
      | nil => simp [ktStringAux, ktUnescapeAux]
      | cons b u =>
        by_cases hb : b = '"'
        · subst hb
          have hK : ktStringAux ('"' :: u) = '\\' :: '"' :: ktStringAux u := by
            simp [ktStringAux]
          have ihu : ktUnescapeAux (ktStringAux u) = u := by
            have h2 := ih
            rw [hK] at h2
            simpa [ktUnescapeAux] using h2
          rw [hK]
          simp [ktUnescapeAux, ihu]
        · have hK : ktStringAux (b :: u) = b :: ktStringAux u := by
            simp [ktStringAux, hb]
          have hcond : ¬(a = '\\' ∧ b = '"') := fun hc => hb hc.2
          rw [hK]
          simp only [ktUnescapeAux, if_neg hcond]
          rw [← hK, ih]

/-- Escaping then re-parsing with the compatible literal grammar yields
back the original string. -/
theorem ktString_roundtrip (s : String) : ktUnescape (ktString s) = s := by
  cases s with
  | mk l => exact congrArg String.mk (ktUnescapeAux_ktStringAux l)

/-- Claim C1: the dict-variant serializer escapes every embedded double
quote as backslash-quote before quoting, and re-parsing recovers the
original value — but the dataclass-variant serializer
`Surah.__toString__`, cited by the same claim, interpolates the name
verbatim, so for a name containing a double quote it emits a corrupted
literal with bare embedded quotes (no escaping), contradicting both the
claim and the escaping its sibling script documents. -/
theorem quote_escaping_divergence :
    (∀ s : String, ktUnescape (ktString s) = s) ∧
    ktString "Al-\"Fatiha\"" = "Al-\\\"Fatiha\\\"" ∧
    surahToKotlin badSurah
      = "Surah(id = 1, name = \"Al-\\\"Fatiha\\\"\", startPage = 1, endPage = 1, makkia = 1, type = 1)" ∧
    surahToString badSurah
      = "Surah(id = 1, name = \"Al-\"Fatiha\"\", startPage = 1, endPage = 1, makkia = 1, type = 1)" :=
  ⟨ktString_roundtrip, rfl, rfl, rfl⟩

/-- Splitting off the first disjunct of a `containsSep` refutation. -/
theorem containsSep_cons_false {c d e : Char} {rest : List Char}
    (h : containsSep (c :: d :: e :: rest) = false) :
    ¬(c = ',' ∧ d = '\n' ∧ e = '\n') ∧ containsSep (d :: e :: rest) = false := by
  have h2 := h
  rw [containsSep] at h2
  simp only [Bool.or_eq_false_iff, decide_eq_false_iff_not] at h2
  exact h2

/-- A chunk free of the separator is scanned to the end: the whole input
becomes a single chunk appended to the accumulator. -/
theorem splitBlankAux_no_sep : ∀ (a : List Char), containsSep a = false →
    ∀ (acc : List Char), splitBlankAux a acc = [acc.reverse ++ a]
  | [], _, acc => by simp [splitBlankAux]
  | [c], _, acc => by simp [splitBlankAux]
  | [c, d], _, acc => by simp [splitBlankAux]
  | c :: d :: e :: rest, h, acc => by
    obtain ⟨h1, h2⟩ := containsSep_cons_false h
    rw [splitBlankAux, if_neg h1]
    rw [splitBlankAux_no_sep (d :: e :: rest) h2 (c :: acc)]
    simp

/-- Scanning a separator-free chunk followed by the separator cuts exactly
at the separator. -/
theorem splitBlankAux_skip : ∀ (a : List Char), containsSep a = false →
    ∀ (b acc : List Char),
      splitBlankAux (a ++ ',' :: '\n' :: '\n' :: b) acc
        = (acc.reverse ++ a) :: splitBlankAux b []
  | [], _, b, acc => by
    rw [List.nil_append, splitBlankAux, if_pos ⟨rfl, rfl, rfl⟩]
    simp
  | [c], h, b, acc => by
    have hc1 : ¬(c = ',' ∧ ',' = '\n' ∧ '\n' = '\n') := by
      intro hc
      exact absurd hc.2.1 (by decide)
    rw [List.cons_append, List.nil_append, splitBlankAux, if_neg hc1]
    rw [splitBlankAux, if_pos ⟨rfl, rfl, rfl⟩]
    simp
  | [c, d], h, b, acc => by
    have hc1 : ¬(c = ',' ∧ d = '\n' ∧ ',' = '\n') := by
      intro hc
      exact absurd hc.2.2 (by decide)
    have hc2 : ¬(d = ',' ∧ ',' = '\n' ∧ '\n' = '\n') := by
      intro hc
      exact absurd hc.2.1 (by decide)
    rw [List.cons_append, List.cons_append, List.nil_append,
      splitBlankAux, if_neg hc1, splitBlankAux, if_neg hc2]
    rw [splitBlankAux, if_pos ⟨rfl, rfl, rfl⟩]
    simp
  | c :: d :: e :: rest, h, b, acc => by
    obtain ⟨h1, h2⟩ := containsSep_cons_false h
    rw [List.cons_append, List.cons_append, List.cons_append,
      splitBlankAux, if_neg h1]
    rw [show d :: e :: (rest ++ ',' :: '\n' :: '\n' :: b)
        = (d :: e :: rest) ++ ',' :: '\n' :: '\n' :: b from rfl]
    rw [splitBlankAux_skip (d :: e :: rest) h2 b (c :: acc)]
    simp

/-- Splitting inverts joining when every part is separator-free. -/
theorem splitBlankAux_joinChars : ∀ (parts : List (List Char)),
    (∀ p ∈ parts, containsSep p = false) → parts ≠ [] →
    splitBlankAux (joinChars sepChars parts) [] = parts
  | [], _, hne => absurd rfl hne
  | [x], h, _ => by
    rw [show joinChars sepChars [x] = x from rfl]
    rw [splitBlankAux_no_sep x (h x (List.mem_singleton.2 rfl)) []]
    simp
  | x :: y :: rest, h, _ => by
    rw [show joinChars sepChars (x :: y :: rest)
        = x ++ ',' :: '\n' :: '\n' :: joinChars sepChars (y :: rest) from by
      rw [joinChars, List.append_assoc]
      rfl]
    rw [splitBlankAux_skip x (h x (List.mem_cons_self x (y :: rest))) (joinChars sepChars (y :: rest)) []]
    rw [splitBlankAux_joinChars (y :: rest)
      (fun p hp => h p (List.mem_cons_of_mem x hp)) (List.cons_ne_nil y rest)]
    simp

/-- Claim C9 (amended): for every nonempty list of Reciters whose
serialized forms do not themselves contain the blank-line separator
`",\n\n"` (in particular any Reciters whose string fields are free of it),
splitting the joined top-level collection on that separator yields exactly
one chunk per Reciter, in original order; and each serialized Reciter
renders its nested Recitation list element by element in source order. -/
theorem reciters_split_order (rs : List Reciter) (hne : rs ≠ [])
    (h : ∀ r ∈ rs, containsSep (reciterToString true r).data = false) :
    pySplitBlank (kotlinReciters rs) = rs.map (fun r => reciterToString true r) ∧
    (∀ r : Reciter, reciterToString true r =
      indentN 2 ++ "Reciter(\n"
      ++ indentN 4 ++ "id = " ++ toString r.id ++ ".asReciterId,\n"
      ++ indentN 4 ++ "name = \"" ++ r.name ++ "\",\n"
      ++ indentN 4 ++ "letter = \"" ++ r.letter ++ "\",\n"
      ++ indentN 4 ++ "date = \"" ++ r.date ++ "\",\n"
      ++ indentN 4 ++ "moshafList = listOf(\n"
      ++ indentN 6
        ++ joinStrings (",\n" ++ indentN 6) (r.moshafList.map (fun m => moshafToString true m))
        ++ "\n"
      ++ indentN 4 ++ ")\n"
      ++ indentN 2 ++ ")") := by
  refine ⟨?_, fun r => rfl⟩
  unfold pySplitBlank kotlinReciters
  rw [joinStrings_data]
  rw [show (",\n\n" : String).data = sepChars from rfl]
  rw [splitBlankAux_joinChars
    ((rs.map (fun r => reciterToString true r)).map String.data) ?hall ?hne2]
  case hall =>
    intro p hp
    simp only [List.mem_map] at hp
    obtain ⟨s, ⟨r, hr, rfl⟩, rfl⟩ := hp
    exact h r hr
  case hne2 =>
    intro hcontra
    apply hne
    simpa using hcontra
  rw [List.map_map, List.map_map]
  simp [Function.comp, string_mk_data]

set_option maxRecDepth 8192

/-- Claim C9 witness: two Reciters with two Recitations each — the joined
collection splits back into exactly those two serialized records, in
order. -/
theorem reciters_split_order_witness :
    pySplitBlank (kotlinReciters [reciterA, reciterB])
      = [reciterA, reciterB].map (fun r => reciterToString true r) :=
  (reciters_split_order [reciterA, reciterB] (List.cons_ne_nil _ _)
    (by decide)).1

/-- Claim C9 counterexample: a single Reciter whose name itself contains
`",\n\n"` makes the claim fail as stated — splitting the serialized
collection of one Reciter yields two chunks, not one chunk per Reciter. -/
theorem reciters_split_counterexample :
    (pySplitBlank (kotlinReciters [reciterBad])).length = 2 ∧
    ([reciterBad] : List Reciter).length = 1 :=
  ⟨by decide, rfl⟩
